import Mathlib

/-!
# Verification of the SQL Query Agent workflow core

A shallow embedding of the workflow orchestration layer of the
SQL Query Agent repository (`SQL_Query_Agent.py`, display helpers from
`streamlit_app.py`).  Node functions are translated directly from the
Python source; calls to external collaborators (the LLM generation
chains and the database execution tool) are passed in as explicit
`Except` parameters, so that a node that catches an exception from a
collaborator is modelled as a function of the collaborator's outcome.

State updates are partial: a node returns an `Update` naming only the
fields it sets, and the engine merges it into the current `State` with
the per-field policy declared on the Python `State` class
(`add` / `add_messages` reducers append; plain fields overwrite).
-/

/-- A chat message, as produced by the workflow's terminal nodes
(`AIMessage` / `HumanMessage` from the source's imports). -/
inductive Message where
  | ai (content : String)
  | human (content : String)
deriving DecidableEq, Repr

/-- The payload stored for one producer in `query_suggestion`:
the Python dict `{"query": ..., "suggestion": ...}` where agents 1 and 2
omit the `suggestion` key (modelled as `none`). -/
structure QueryData where
  query : String
  suggestion : Option (List String) := none
deriving DecidableEq, Repr

/-- The structured chain output schema `QueryOutput`
(`query` plus a list of improvement suggestions). -/
structure QueryOutput where
  query : String
  suggestion : List String
deriving DecidableEq, Repr

/-- The workflow state: the `State(MessagesState)` class of the source.
`messages` carries the `add_messages` reducer and `query_suggestion` the
`add` reducer (append); the remaining fields are plain (overwrite). -/
structure State where
  messages : List Message
  user_request : String
  user_feedback : String
  selected_query : Option String
  query_suggestion : List (String × QueryData)
  refactoring_suggestion : Option (List String)
  query_result : Option String
  error_message : Option String
deriving DecidableEq, Repr

/-- A partial state update as returned by a node: `none` in an
overwrite field means the node's dict does not mention the field
(`some v` sets it to `v`, where `v` itself may be Python `None`);
the two reducer-fields contribute a list that is appended. -/
structure Update where
  messages : List Message := []
  user_request : Option String := none
  user_feedback : Option String := none
  selected_query : Option (Option String) := none
  query_suggestion : List (String × QueryData) := []
  refactoring_suggestion : Option (Option (List String)) := none
  query_result : Option (Option String) := none
  error_message : Option (Option String) := none
deriving DecidableEq, Repr

/-- The engine's merge of a node's partial update into the state:
append for the two reducer fields, last-write-wins for the rest. -/
def applyUpdate (s : State) (u : Update) : State :=
  { messages := s.messages ++ u.messages
    user_request := u.user_request.getD s.user_request
    user_feedback := u.user_feedback.getD s.user_feedback
    selected_query := u.selected_query.getD s.selected_query
    query_suggestion := s.query_suggestion ++ u.query_suggestion
    refactoring_suggestion := u.refactoring_suggestion.getD s.refactoring_suggestion
    query_result := u.query_result.getD s.query_result
    error_message := u.error_message.getD s.error_message }

/-- Python `str(x)` on a nullable string value (`str(None) = "None"`). -/
def pyStr (o : Option String) : String :=
  match o with
  | none => "None"
  | some s => s

/-- Python `str` of a list of strings (`repr`-quoted, comma separated). -/
def pyStrList (l : List String) : String :=
  "[" ++ String.intercalate ", " (l.map (fun s => "\x27" ++ s ++ "\x27")) ++ "]"

/-- Python `str` on the nullable `refactoring_suggestion` field. -/
def pyStrOptList (o : Option (List String)) : String :=
  match o with
  | none => "None"
  | some l => pyStrList l

/-- Python truthiness of the nullable `refactoring_suggestion` field:
`None` and the empty list are falsy. -/
def truthy (o : Option (List String)) : Bool :=
  match o with
  | some (_ :: _) => true
  | _ => false

/-- `WorkflowManager.gateway`: reset the scalar fields; the
`query_suggestion` entry of the returned dict is the empty list
(a no-op contribution under the `add` reducer). -/
def gateway (_s : State) : Update :=
  { selected_query := some none
    query_suggestion := []
    refactoring_suggestion := some none
    query_result := some none
    error_message := some none }

/-- The payload of one `Send` produced by the gateway's fan-out router. -/
structure SendPayload where
  user_request : String
  user_feedback : String
deriving DecidableEq, Repr

/-- `WorkflowManager.generate_query`: the fan-out router returning one
`Send` per query agent, each seeded with the request and feedback. -/
def generate_query (s : State) : List (String × SendPayload) :=
  [("query_agent_1", ⟨s.user_request, s.user_feedback⟩),
   ("query_agent_2", ⟨s.user_request, s.user_feedback⟩),
   ("query_agent_3", ⟨s.user_request, s.user_feedback⟩)]

/-- `WorkflowManager.find_selected_query`: the first entry of
`query_suggestion` whose producer matches, or Python `None`. -/
def find_selected_query (s : State) (agent_name : String) : Option String :=
  (s.query_suggestion.find? (fun p => p.1 = agent_name)).map (fun p => p.2.query)

/-- `WorkflowManager.find_suggestion`: the `suggestion` list of the first
matching entry (defaulting to `[]` as `dict.get` does), or `[]`. -/
def find_suggestion (s : State) (agent_name : String) : List String :=
  match s.query_suggestion.find? (fun p => p.1 = agent_name) with
  | some p => p.2.suggestion.getD []
  | none => []

/-- `WorkflowManager.wait_user_feedback`: the suspend point.  The
`interrupt(...)` resume value is the explicit `user_input` parameter. -/
def wait_user_feedback (s : State) (user_input : String) : Update :=
  if user_input = "1" then
    { user_feedback := some "1"
      selected_query := some (find_selected_query s "query_agent_1") }
  else if user_input = "2" then
    { user_feedback := some "2"
      selected_query := some (find_selected_query s "query_agent_2") }
  else if user_input = "3" then
    { user_feedback := some "3"
      selected_query := some (find_selected_query s "query_agent_3")
      refactoring_suggestion := some (some (find_suggestion s "query_agent_3")) }
  else
    { user_feedback := some user_input }

/-- `WorkflowManager.next_after_feedback`: the conditional router after
the suspend point. -/
def next_after_feedback (s : State) : String :=
  let user_input := s.user_feedback
  if user_input ∈ ["1", "2", "3"] then "execute"
  else if user_input ∈ ["stop", "cancel", "exit", "quit"] then "cancel"
  else "retry"

/-- `WorkflowManager.execute_query`: run the selected query; the DB
tool's outcome is the explicit `dbResult` parameter (a raised exception
becomes `Except.error` with the exception text). -/
def execute_query (_s : State) (dbResult : Except String String) : Update :=
  match dbResult with
  | .ok query_result => { query_result := some (some query_result), error_message := some none }
  | .error e => { query_result := some none, error_message := some (some e) }

/-- `WorkflowManager.query_agent_1` (basic chain): on success one entry
with the generated query; on an exception one entry whose query is the
error placeholder. -/
def query_agent_1 (response : Except String QueryOutput) : Update :=
  match response with
  | .ok r => { query_suggestion := [("query_agent_1", { query := r.query })] }
  | .error e => { query_suggestion := [("query_agent_1", { query := "-- Error: " ++ e })] }

/-- `WorkflowManager.query_agent_2` (optimized chain). -/
def query_agent_2 (response : Except String QueryOutput) : Update :=
  match response with
  | .ok r => { query_suggestion := [("query_agent_2", { query := r.query })] }
  | .error e => { query_suggestion := [("query_agent_2", { query := "-- Error: " ++ e })] }

/-- `WorkflowManager.query_agent_3` (advanced chain): also carries the
`suggestion` list (empty on an exception). -/
def query_agent_3 (response : Except String QueryOutput) : Update :=
  match response with
  | .ok r =>
    { query_suggestion := [("query_agent_3", { query := r.query, suggestion := some r.suggestion })] }
  | .error e =>
    { query_suggestion := [("query_agent_3", { query := "-- Error: " ++ e, suggestion := some [] })] }

/-- `WorkflowManager.aggregate`: the join node, an empty update. -/
def aggregate (_s : State) : Update := {}

/-- `WorkflowManager.end_on_success`: completion message, the string
form of the result, and the refactoring suggestions when truthy. -/
def end_on_success (s : State) : Update :=
  let base := [Message.ai "쿼리 실행 완료", Message.ai (pyStr s.query_result)]
  if truthy s.refactoring_suggestion then
    { messages := base ++ [Message.ai (pyStrOptList s.refactoring_suggestion)] }
  else
    { messages := base }

/-- `WorkflowManager.end_on_error`: error banner plus the string form
of `error_message`. -/
def end_on_error (s : State) : Update :=
  { messages := [Message.ai "쿼리 실행 오류", Message.ai (pyStr s.error_message)] }

/-- `WorkflowManager.end_on_cancel`. -/
def end_on_cancel (_s : State) : Update :=
  { messages := [Message.ai "쿼리 실행 취소"] }

/-- The label-to-node dictionary of the conditional edge after the
suspend point (`_build_graph`). -/
def feedback_route_map : List (String × String) :=
  [("retry", "gateway"), ("execute", "execute_query"), ("cancel", "end_on_cancel")]

/-- The router of the conditional edge after `execute_query`
(`"success" if x["error_message"] is None else "error"`). -/
def execute_route (s : State) : String :=
  match s.error_message with
  | none => "success"
  | some _ => "error"

/-- The label-to-node dictionary of the conditional edge after
`execute_query` (`_build_graph`). -/
def execute_route_map : List (String × String) :=
  [("success", "end_on_success"), ("error", "end_on_error")]

/-- The unconditional edges registered in `_build_graph`. -/
def static_edges : List (String × String) :=
  [("START", "gateway"),
   ("query_agent_1", "aggregate"), ("query_agent_2", "aggregate"),
   ("query_agent_3", "aggregate"), ("aggregate", "wait_user_feedback"),
   ("end_on_success", "END"), ("end_on_error", "END"), ("end_on_cancel", "END")]

/-- Target lookup in a conditional-edge dictionary. -/
def lookupTarget (m : List (String × String)) (label : String) : Option String :=
  (m.find? (fun p => p.1 = label)).map (fun p => p.2)

/-- The fan-in: the three agent updates of one fan-out dispatch merged
into the state (dispatch order). -/
def fanoutJoin (s : State) (r1 r2 r3 : Except String QueryOutput) : State :=
  applyUpdate (applyUpdate (applyUpdate s (query_agent_1 r1)) (query_agent_2 r2)) (query_agent_3 r3)

deriving instance DecidableEq for Except

/-- The chain outcomes consumed if a resume routes back through the
gateway into a new fan-out. -/
structure RetryExternals where
  r1 : Except String QueryOutput
  r2 : Except String QueryOutput
  r3 : Except String QueryOutput
deriving DecidableEq, Repr

/-- Whether a resumed walk ends at a terminal node or suspends again at
`wait_user_feedback`. -/
inductive WalkEnd where
  | completed
  | suspendedAgain
deriving DecidableEq, Repr

/-- One resumed walk from the suspend point: inject the resume input,
route via `next_after_feedback`, and continue to the next suspend point
or terminal node of the graph of `_build_graph`. -/
def resumeWalk (s : State) (input : String) (ext : RetryExternals)
    (dbResult : Except String String) : State × WalkEnd :=
  let s1 := applyUpdate s (wait_user_feedback s input)
  let label := next_after_feedback s1
  if label = "execute" then
    let s2 := applyUpdate s1 (execute_query s1 dbResult)
    if execute_route s2 = "success" then
      (applyUpdate s2 (end_on_success s2), WalkEnd.completed)
    else
      (applyUpdate s2 (end_on_error s2), WalkEnd.completed)
  else if label = "cancel" then
    (applyUpdate s1 (end_on_cancel s1), WalkEnd.completed)
  else
    let s2 := applyUpdate s1 (gateway s1)
    let s3 := fanoutJoin s2 ext.r1 ext.r2 ext.r3
    (applyUpdate s3 (aggregate s3), WalkEnd.suspendedAgain)

/-- The status of a thread's last checkpoint. -/
inductive ThreadStatus where
  | running
  | suspended
  | completed
  | failed
deriving DecidableEq, Repr

/-- A checkpoint: the persisted state snapshot plus the thread status. -/
structure Checkpoint where
  state : State
  status : ThreadStatus
deriving DecidableEq, Repr

/-- The protocol faults `resume` reports before touching any state. -/
inductive ResumeError where
  | unknownThread
  | notSuspended
deriving DecidableEq, Repr

/-- The checkpoint store: one checkpoint per thread identifier. -/
abbrev Store := List (String × Checkpoint)

/-- `load(threadId)` on the checkpoint store. -/
def loadCheckpoint (store : Store) (tid : String) : Option Checkpoint :=
  (store.find? (fun p => p.1 = tid)).map (fun p => p.2)

/-- `save(threadId, checkpoint)`: idempotent overwrite. -/
def saveCheckpoint (store : Store) (tid : String) (cp : Checkpoint) : Store :=
  if (store.find? (fun p => p.1 = tid)).isSome then
    store.map (fun p => if p.1 = tid then (tid, cp) else p)
  else
    store ++ [(tid, cp)]

/-- Modelled from the spec: the engine's `resume(threadId, externalInput)`
entry.  The checkpointing engine itself (the compiled graph with its
`InMemorySaver`) is a library collaborator, not part of the repository's
source files; the spec states that resume fails with `UnknownThreadError`
when no checkpoint exists and with `NotSuspendedError` when the last
checkpoint is not suspended, in both cases before any state mutation.
On a suspended checkpoint the walk continues as `resumeWalk` and the new
checkpoint is saved. -/
def resume (store : Store) (tid : String) (input : String)
    (ext : RetryExternals) (dbResult : Except String String) :
    Store × Except ResumeError (State × WalkEnd) :=
  match loadCheckpoint store tid with
  | none => (store, Except.error ResumeError.unknownThread)
  | some cp =>
    if cp.status = ThreadStatus.suspended then
      let r := resumeWalk cp.state input ext dbResult
      let status := match r.2 with
        | WalkEnd.completed => ThreadStatus.completed
        | WalkEnd.suspendedAgain => ThreadStatus.suspended
      (saveCheckpoint store tid ⟨r.1, status⟩, Except.ok r)
    else
      (store, Except.error ResumeError.notSuspended)

/-- `UIManager._process_query_suggestions` (display layer), first trim:
Python `query_suggestions[-3:]` when more than three entries. -/
def lastThree (l : List (String × QueryData)) : List (String × QueryData) :=
  if l.length > 3 then l.drop (l.length - 3) else l

/-- The `latest_suggestions` dict of
`UIManager._process_query_suggestions`: inserting every entry in order,
so a later entry for the same agent overwrites an earlier one. -/
def latestByAgent (l : List (String × QueryData)) : String → Option QueryData :=
  l.foldl (fun m p => fun a => if a = p.1 then some p.2 else m a) (fun _ => none)

/-- The fixed display order of `UIManager._process_query_suggestions`. -/
def agent_order : List String := ["query_agent_1", "query_agent_2", "query_agent_3"]

/-- `UIManager._process_query_suggestions`: keep the last three entries,
deduplicate per agent keeping the latest, order by `agent_order`. -/
def process_query_suggestions (l : List (String × QueryData)) : List (String × QueryData) :=
  if l = [] then []
  else
    let recent := lastThree l
    let latest := latestByAgent recent
    agent_order.filterMap (fun a => (latest a).map (fun d => (a, d)))

/-- The query of the most recent (latest-appended) entry of a given
producer; this definition follows the spec's words ("when multiple
updates exist for the same producer, the most recent wins"), for
comparison with the source's `find_selected_query`. -/
def spec_most_recent_query (s : State) (agent_name : String) : Option String :=
  (s.query_suggestion.reverse.find? (fun p => p.1 = agent_name)).map (fun p => p.2.query)

/-! ## Helper lemmas -/

/-- Every branch of the suspend point's update sets `user_feedback` to
the resume input. -/
theorem wait_user_feedback_sets_feedback (s : State) (inp : String) :
    (applyUpdate s (wait_user_feedback s inp)).user_feedback = inp := by
  unfold wait_user_feedback
  by_cases h1 : inp = "1" <;> by_cases h2 : inp = "2" <;> by_cases h3 : inp = "3" <;>
    simp [h1, h2, h3, applyUpdate]

/-- Any sequence of merged updates only ever appends to
`query_suggestion`. -/
theorem foldl_applyUpdate_append (us : List Update) (s : State) :
    ∃ t, (us.foldl applyUpdate s).query_suggestion = s.query_suggestion ++ t := by
  induction us generalizing s with
  | nil => exact ⟨[], by simp⟩
  | cons u us ih =>
    obtain ⟨t, ht⟩ := ih (applyUpdate s u)
    refine ⟨u.query_suggestion ++ t, ?_⟩
    have hu : (applyUpdate s u).query_suggestion = s.query_suggestion ++ u.query_suggestion := rfl
    simp only [List.foldl_cons]
    rw [ht, hu, List.append_assoc]

/-- The entry agent 1 contributes for a given chain outcome. -/
def agent1_entry (r : Except String QueryOutput) : QueryData :=
  match r with
  | .ok q => { query := q.query }
  | .error e => { query := "-- Error: " ++ e }

/-- The entry agent 2 contributes for a given chain outcome. -/
def agent2_entry (r : Except String QueryOutput) : QueryData :=
  match r with
  | .ok q => { query := q.query }
  | .error e => { query := "-- Error: " ++ e }

/-- The entry agent 3 contributes for a given chain outcome. -/
def agent3_entry (r : Except String QueryOutput) : QueryData :=
  match r with
  | .ok q => { query := q.query, suggestion := some q.suggestion }
  | .error e => { query := "-- Error: " ++ e, suggestion := some [] }

/-- The join of one fan-out appends exactly one entry per producer, in
dispatch order, whatever each chain's outcome was. -/
theorem fanoutJoin_query_suggestion (s : State) (r1 r2 r3 : Except String QueryOutput) :
    (fanoutJoin s r1 r2 r3).query_suggestion
      = s.query_suggestion
        ++ [("query_agent_1", agent1_entry r1), ("query_agent_2", agent2_entry r2),
            ("query_agent_3", agent3_entry r3)] := by
  cases r1 <;> cases r2 <;> cases r3 <;>
    simp [fanoutJoin, applyUpdate, query_agent_1, query_agent_2, query_agent_3,
      agent1_entry, agent2_entry, agent3_entry]

/-- Indexing the three entries appended after a list. -/
theorem getElem_append_three (l : List (String × QueryData)) (x y z : String × QueryData) :
    (l ++ [x, y, z])[l.length]? = some x ∧
    (l ++ [x, y, z])[l.length + 1]? = some y ∧
    (l ++ [x, y, z])[l.length + 2]? = some z := by
  refine ⟨?_, ?_, ?_⟩ <;> rw [List.getElem?_append_right (by omega)] <;> simp

/-- The `latest_suggestions` dict of the display layer holds, for each
agent, the payload of the last entry inserted for it. -/
theorem latestByAgent_foldl (l : List (String × QueryData)) (m : String → Option QueryData)
    (a : String) :
    (l.foldl (fun m p => fun a => if a = p.1 then some p.2 else m a) m) a
      = (((l.reverse.find? (fun p => p.1 = a)).map (fun p => p.2)).or (m a)) := by
  induction l generalizing m with
  | nil => simp
  | cons p t ih =>
    simp only [List.foldl_cons, List.reverse_cons, ih, List.find?_append]
    cases hf : t.reverse.find? (fun q => q.1 = a) with
    | some q => simp
    | none =>
      simp only [Option.or, Option.map]
      by_cases hpa : p.1 = a
      · simp [List.find?_cons, hpa]
      · have : ¬a = p.1 := fun h => hpa h.symm
        simp [List.find?_cons, hpa, this]

/-- `latestByAgent` keeps, per agent, the last (most recent) payload. -/
theorem latestByAgent_eq (l : List (String × QueryData)) (a : String) :
    latestByAgent l a = (l.reverse.find? (fun p => p.1 = a)).map (fun p => p.2) := by
  unfold latestByAgent
  rw [latestByAgent_foldl]
  cases (l.reverse.find? (fun p => p.1 = a)).map (fun p => p.2) <;> simp

/-- The `[-3:]` trim keeps exactly a freshly appended cycle of three. -/
theorem lastThree_append_cycle (prev : List (String × QueryData))
    (x y z : String × QueryData) :
    lastThree (prev ++ [x, y, z]) = [x, y, z] := by
  unfold lastThree
  rcases prev with _ | ⟨p, t⟩
  · simp
  · rw [if_pos (by simp)]
    have hlen : ((p :: t) ++ [x, y, z]).length - 3 = (p :: t).length := by simp
    rw [hlen, List.drop_left]

/-! ## The claims -/

/-- Claim C9: the gateway node resets `selected_query`,
`refactoring_suggestion`, `query_result` and `error_message` to `None`
while leaving `user_request`, `user_feedback`, `messages` and the
accumulated `query_suggestion` list unchanged. -/
theorem c9_gateway_frame (s : State) :
    (applyUpdate s (gateway s)).selected_query = none ∧
    (applyUpdate s (gateway s)).refactoring_suggestion = none ∧
    (applyUpdate s (gateway s)).query_result = none ∧
    (applyUpdate s (gateway s)).error_message = none ∧
    (applyUpdate s (gateway s)).user_request = s.user_request ∧
    (applyUpdate s (gateway s)).user_feedback = s.user_feedback ∧
    (applyUpdate s (gateway s)).messages = s.messages ∧
    (applyUpdate s (gateway s)).query_suggestion = s.query_suggestion := by
  simp [applyUpdate, gateway]

/-- Claim C7: under the list-append merge policy no node's update ever
truncates `query_suggestion`: one merged update appends its
contribution, the gateway's reset contributes the empty list (a no-op),
and across any sequence of merged updates the existing entries are
preserved in order (the old list is a prefix of the new) and the length
is non-decreasing. -/
theorem c7_query_suggestion_append_only (s : State) (u : Update) (us : List Update) :
    (applyUpdate s u).query_suggestion = s.query_suggestion ++ u.query_suggestion ∧
    (gateway s).query_suggestion = [] ∧
    (applyUpdate s (gateway s)).query_suggestion = s.query_suggestion ∧
    (∃ t, (us.foldl applyUpdate s).query_suggestion = s.query_suggestion ++ t) ∧
    s.query_suggestion.length ≤ (us.foldl applyUpdate s).query_suggestion.length := by
  refine ⟨rfl, rfl, by simp [applyUpdate, gateway], foldl_applyUpdate_append us s, ?_⟩
  obtain ⟨t, ht⟩ := foldl_applyUpdate_append us s
  simp [ht]

/-- Claim C5: when the database call raises, `execute_query` converts
the fault to data (`error_message` gets the exception text,
`query_result` becomes `None`, nothing propagates), the conditional
edge after it routes to the `end_on_error` terminal, and that
terminal's appended messages include the underlying fault text. -/
theorem c5_execute_error_path (s : State) (e : String) :
    execute_query s (Except.error e)
      = { query_result := some none, error_message := some (some e) } ∧
    (applyUpdate s (execute_query s (Except.error e))).error_message = some e ∧
    (applyUpdate s (execute_query s (Except.error e))).query_result = none ∧
    execute_route (applyUpdate s (execute_query s (Except.error e))) = "error" ∧
    lookupTarget execute_route_map "error" = some "end_on_error" ∧
    Message.ai e ∈ (end_on_error (applyUpdate s (execute_query s (Except.error e)))).messages := by
  refine ⟨rfl, rfl, rfl, rfl, rfl, ?_⟩
  simp [end_on_error, applyUpdate, execute_query, pyStr]

/-- Claim C6: when the database execution succeeds, `execute_query`
sets `error_message` to `None`, the conditional edge routes to
`end_on_success` (and it routes to "success" if and only if
`error_message` is `None`), and the success terminal's messages contain
a message whose content is the string form of `query_result`, which is
the execution result itself. -/
theorem c6_execute_success_path (s s' : State) (r : String) :
    execute_query s (Except.ok r)
      = { query_result := some (some r), error_message := some none } ∧
    (applyUpdate s (execute_query s (Except.ok r))).error_message = none ∧
    (execute_route s' = "success" ↔ s'.error_message = none) ∧
    execute_route (applyUpdate s (execute_query s (Except.ok r))) = "success" ∧
    lookupTarget execute_route_map "success" = some "end_on_success" ∧
    (applyUpdate s (execute_query s (Except.ok r))).query_result = some r ∧
    Message.ai r ∈ (end_on_success (applyUpdate s (execute_query s (Except.ok r)))).messages := by
  refine ⟨rfl, rfl, ?_, rfl, rfl, rfl, ?_⟩
  · cases h : s'.error_message <;> simp [execute_route, h]
  · by_cases h : truthy s.refactoring_suggestion <;>
      simp [end_on_success, h, applyUpdate, execute_query, pyStr]

/-- Claim C3: the post-feedback router is total and partitions resume
inputs exactly three ways: "execute" iff the input is "1", "2" or "3";
"cancel" iff it is "stop", "cancel", "exit" or "quit"; "retry" iff it
is neither; `user_feedback` is always overwritten with the input; and
the route labels map to the gateway, `execute_query` and
`end_on_cancel` nodes respectively. -/
theorem c3_feedback_router_partition (s : State) (inp : String) :
    (applyUpdate s (wait_user_feedback s inp)).user_feedback = inp ∧
    (next_after_feedback (applyUpdate s (wait_user_feedback s inp)) = "execute"
      ↔ (inp = "1" ∨ inp = "2" ∨ inp = "3")) ∧
    (next_after_feedback (applyUpdate s (wait_user_feedback s inp)) = "cancel"
      ↔ (inp = "stop" ∨ inp = "cancel" ∨ inp = "exit" ∨ inp = "quit")) ∧
    (next_after_feedback (applyUpdate s (wait_user_feedback s inp)) = "retry"
      ↔ (¬(inp = "1" ∨ inp = "2" ∨ inp = "3") ∧
         ¬(inp = "stop" ∨ inp = "cancel" ∨ inp = "exit" ∨ inp = "quit"))) ∧
    lookupTarget feedback_route_map "retry" = some "gateway" ∧
    lookupTarget feedback_route_map "execute" = some "execute_query" ∧
    lookupTarget feedback_route_map "cancel" = some "end_on_cancel" := by
  have hf := wait_user_feedback_sets_feedback s inp
  have hdisj : ¬((inp = "1" ∨ inp = "2" ∨ inp = "3") ∧
      (inp = "stop" ∨ inp = "cancel" ∨ inp = "exit" ∨ inp = "quit")) := by
    rintro ⟨h1, h2⟩
    rcases h1 with h | h | h <;> subst h <;> revert h2 <;> decide
  refine ⟨hf, ?_, ?_, ?_, rfl, rfl, rfl⟩ <;>
    · unfold next_after_feedback
      rw [hf]
      by_cases hsel : inp ∈ (["1", "2", "3"] : List String) <;>
        by_cases hcan : inp ∈ (["stop", "cancel", "exit", "quit"] : List String) <;>
          simp_all

/-- A state whose accumulated list holds two entries for producer
`query_agent_2`, as after one retry cycle. -/
def c1_state : State :=
  { messages := [], user_request := "q", user_feedback := "fb"
    selected_query := none
    query_suggestion := [("query_agent_2", { query := "A" }), ("query_agent_2", { query := "B" })]
    refactoring_suggestion := none, query_result := none, error_message := none }

/-- Claim C1, counterexample: with two accumulated `query_agent_2`
entries, resuming with "2" selects the query of the FIRST entry ("A"),
not of the most recent one ("B") as the claim states; the walk still
routes to execution. -/
theorem c1_counterexample :
    c1_state.query_suggestion.length = 2 ∧
    (applyUpdate c1_state (wait_user_feedback c1_state "2")).selected_query = some "A" ∧
    spec_most_recent_query c1_state "query_agent_2" = some "B" ∧
    ¬((applyUpdate c1_state (wait_user_feedback c1_state "2")).selected_query
        = spec_most_recent_query c1_state "query_agent_2") ∧
    next_after_feedback (applyUpdate c1_state (wait_user_feedback c1_state "2")) = "execute" := by
  decide

/-- Claim C1 (amended): for every state whose accumulated list contains
an entry for `query_agent_2`, resuming the suspend point with "2" sets
`selected_query` to the query of the EARLIEST (first-appended) such
entry — `find_selected_query` returns the first match — and routes to
execution, independent of other producers' entries. -/
theorem c1_earliest_entry_selected (s : State)
    (h : (s.query_suggestion.find? (fun p => p.1 = "query_agent_2")).isSome = true) :
    (applyUpdate s (wait_user_feedback s "2")).selected_query
      = (s.query_suggestion.find? (fun p => p.1 = "query_agent_2")).map (fun p => p.2.query) ∧
    (applyUpdate s (wait_user_feedback s "2")).selected_query.isSome = true ∧
    (applyUpdate s (wait_user_feedback s "2")).user_feedback = "2" ∧
    next_after_feedback (applyUpdate s (wait_user_feedback s "2")) = "execute" ∧
    lookupTarget feedback_route_map "execute" = some "execute_query" := by
  have h1 : (applyUpdate s (wait_user_feedback s "2")).selected_query
      = find_selected_query s "query_agent_2" := by
    simp [wait_user_feedback, applyUpdate]
  refine ⟨h1, ?_, ?_, ?_, rfl⟩
  · rw [h1]
    simpa [find_selected_query] using h
  · simp [wait_user_feedback, applyUpdate]
  · unfold next_after_feedback
    rw [wait_user_feedback_sets_feedback]
    simp

/-- Witness for C1's amended theorem at the two-entry state. -/
theorem c1_earliest_entry_selected_witness :
    (applyUpdate c1_state (wait_user_feedback c1_state "2")).selected_query
      = (c1_state.query_suggestion.find? (fun p => p.1 = "query_agent_2")).map (fun p => p.2.query) ∧
    (applyUpdate c1_state (wait_user_feedback c1_state "2")).selected_query.isSome = true ∧
    (applyUpdate c1_state (wait_user_feedback c1_state "2")).user_feedback = "2" ∧
    next_after_feedback (applyUpdate c1_state (wait_user_feedback c1_state "2")) = "execute" ∧
    lookupTarget feedback_route_map "execute" = some "execute_query" :=
  c1_earliest_entry_selected c1_state (by decide)

/-- Claim C2: a fan-out dispatch sends to exactly the three query
agents, and the join observes exactly three newly appended entries,
one per producer in dispatch order, whatever each chain's outcome; a
producer whose chain raises still contributes its entry, whose query
is the placeholder "-- Error: " followed by the exception text. -/
theorem c2_fanout_join_three_entries (s : State) (r1 r2 r3 : Except String QueryOutput)
    (e1 e2 e3 : String) :
    (generate_query s).map Prod.fst = ["query_agent_1", "query_agent_2", "query_agent_3"] ∧
    ((fanoutJoin s r1 r2 r3).query_suggestion).map Prod.fst
      = s.query_suggestion.map Prod.fst ++ ["query_agent_1", "query_agent_2", "query_agent_3"] ∧
    (fanoutJoin s r1 r2 r3).query_suggestion.length = s.query_suggestion.length + 3 ∧
    (fanoutJoin s (Except.error e1) r2 r3).query_suggestion[s.query_suggestion.length]?
      = some ("query_agent_1", { query := "-- Error: " ++ e1 }) ∧
    (fanoutJoin s r1 (Except.error e2) r3).query_suggestion[s.query_suggestion.length + 1]?
      = some ("query_agent_2", { query := "-- Error: " ++ e2 }) ∧
    (fanoutJoin s r1 r2 (Except.error e3)).query_suggestion[s.query_suggestion.length + 2]?
      = some ("query_agent_3", { query := "-- Error: " ++ e3, suggestion := some [] }) := by
  refine ⟨by simp [generate_query], ?_, ?_, ?_, ?_, ?_⟩
  · rw [fanoutJoin_query_suggestion]; simp
  · rw [fanoutJoin_query_suggestion]; simp
  · rw [fanoutJoin_query_suggestion]
    exact (getElem_append_three _ _ _ _).1
  · rw [fanoutJoin_query_suggestion]
    exact (getElem_append_three _ _ _ _).2.1
  · rw [fanoutJoin_query_suggestion]
    exact (getElem_append_three _ _ _ _).2.2

/-- Claim C10 (amended): only the "3" branch of the suspend point sets
`refactoring_suggestion` (to agent 3's suggestion list), every other
input leaves it unset; `None` and the empty list are falsy; and the
success terminal appends the third message — whose content is the
string form of the suggestions — exactly when `refactoring_suggestion`
is truthy, i.e. set by a "3" selection to a non-empty list, and exactly
two messages otherwise. -/
theorem c10_refactoring_message_condition (s : State) (inp x : String) (xs : List String) :
    (wait_user_feedback s inp).refactoring_suggestion
      = (if inp = "3" then some (some (find_suggestion s "query_agent_3")) else none) ∧
    truthy none = false ∧ truthy (some []) = false ∧ truthy (some (x :: xs)) = true ∧
    (end_on_success s).messages.length = (if truthy s.refactoring_suggestion then 3 else 2) ∧
    (end_on_success s).messages[0]? = some (Message.ai "쿼리 실행 완료") ∧
    (end_on_success s).messages[1]? = some (Message.ai (pyStr s.query_result)) ∧
    (end_on_success s).messages[2]?
      = (if truthy s.refactoring_suggestion
          then some (Message.ai (pyStrOptList s.refactoring_suggestion)) else none) := by
  refine ⟨?_, rfl, rfl, rfl, ?_, ?_, ?_, ?_⟩
  · by_cases h1 : inp = "1" <;> by_cases h2 : inp = "2" <;> by_cases h3 : inp = "3" <;>
      simp [wait_user_feedback, h1, h2, h3]
  all_goals by_cases h : truthy s.refactoring_suggestion <;> simp [end_on_success, h]

/-- A suspended state whose agent-3 entry carries an empty suggestion
list. -/
def c10_base : State :=
  { messages := [], user_request := "q", user_feedback := ""
    selected_query := none
    query_suggestion :=
      [("query_agent_1", { query := "Q1" }), ("query_agent_2", { query := "Q2" }),
       ("query_agent_3", { query := "Q3", suggestion := some [] })]
    refactoring_suggestion := none, query_result := none, error_message := none }

/-- The state after resuming `c10_base` with selector "3". -/
def c10_s1 : State := applyUpdate c10_base (wait_user_feedback c10_base "3")

/-- The state after the selected query then executes successfully. -/
def c10_s2 : State := applyUpdate c10_s1 (execute_query c10_s1 (Except.ok "42"))

/-- Claim C10, counterexample: the user selects "3" and execution
succeeds, yet the success terminal appends only two messages, because
agent 3's suggestion list is empty — refuting "a third message if and
only if the user selected 3". -/
theorem c10_counterexample :
    c10_s1.user_feedback = "3" ∧
    c10_s1.refactoring_suggestion = some [] ∧
    execute_route c10_s2 = "success" ∧
    (end_on_success c10_s2).messages.length = 2 ∧
    ¬(end_on_success c10_s2).messages.length = 3 := by
  decide

/-- An empty workflow state. -/
def sample_state : State :=
  { messages := [], user_request := "", user_feedback := ""
    selected_query := none, query_suggestion := []
    refactoring_suggestion := none, query_result := none, error_message := none }

/-- Concrete chain outcomes for a retry fan-out. -/
def sample_ext : RetryExternals :=
  ⟨Except.ok ⟨"SELECT 1", []⟩, Except.ok ⟨"SELECT 2", []⟩, Except.ok ⟨"SELECT 3", []⟩⟩

/-- Claim C4 (spec-modelled): `resume` on a thread with no checkpoint
fails with `UnknownThreadError` leaving the store untouched, and on a
thread whose last checkpoint is not suspended fails with
`NotSuspendedError`, also without mutation. -/
theorem c4_resume_guard_errors (store : Store) (tid inp : String)
    (ext : RetryExternals) (db : Except String String) (cp : Checkpoint) :
    (loadCheckpoint store tid = none →
      resume store tid inp ext db = (store, Except.error ResumeError.unknownThread)) ∧
    (loadCheckpoint store tid = some cp → ¬cp.status = ThreadStatus.suspended →
      resume store tid inp ext db = (store, Except.error ResumeError.notSuspended)) := by
  constructor
  · intro h
    simp [resume, h]
  · intro h hs
    simp [resume, h, hs]

/-- Witness for C4 on an empty store and on a completed thread. -/
theorem c4_resume_guard_errors_witness :
    resume [] "t1" "1" sample_ext (Except.ok "r")
      = ([], Except.error ResumeError.unknownThread) ∧
    resume [("t2", ⟨sample_state, ThreadStatus.completed⟩)] "t2" "1" sample_ext (Except.ok "r")
      = ([("t2", ⟨sample_state, ThreadStatus.completed⟩)], Except.error ResumeError.notSuspended) :=
  ⟨(c4_resume_guard_errors [] "t1" "1" sample_ext (Except.ok "r")
      ⟨sample_state, ThreadStatus.completed⟩).1 rfl,
   (c4_resume_guard_errors [("t2", ⟨sample_state, ThreadStatus.completed⟩)] "t2" "1" sample_ext
      (Except.ok "r") ⟨sample_state, ThreadStatus.completed⟩).2 rfl (by decide)⟩

/-- Claim C8: the display layer's trimming keeps only the last three
entries of the accumulated list, deduplicates per producer keeping the
latest of those, returns them in the fixed producer order — so a
freshly appended fan-out cycle is displayed exactly — and never yields
more than three entries. -/
theorem c8_display_trim (l prev : List (String × QueryData)) (d1 d2 d3 : QueryData)
    (a : String) :
    (process_query_suggestions l).length ≤ 3 ∧
    latestByAgent l a = (l.reverse.find? (fun p => p.1 = a)).map (fun p => p.2) ∧
    lastThree (prev ++ [("query_agent_1", d1), ("query_agent_2", d2), ("query_agent_3", d3)])
      = [("query_agent_1", d1), ("query_agent_2", d2), ("query_agent_3", d3)] ∧
    process_query_suggestions
        (prev ++ [("query_agent_1", d1), ("query_agent_2", d2), ("query_agent_3", d3)])
      = [("query_agent_1", d1), ("query_agent_2", d2), ("query_agent_3", d3)] := by
  refine ⟨?_, latestByAgent_eq l a, lastThree_append_cycle prev _ _ _, ?_⟩
  · unfold process_query_suggestions
    by_cases h : l = []
    · simp [h]
    · simp only [h, if_false]
      calc (agent_order.filterMap
              (fun a => (latestByAgent (lastThree l) a).map (fun d => (a, d)))).length
          ≤ agent_order.length := List.length_filterMap_le _ _
        _ = 3 := rfl
  · unfold process_query_suggestions
    rw [if_neg (by simp), lastThree_append_cycle prev _ _ _]
    simp [latestByAgent, agent_order, List.filterMap]
